import Mathlib

/-!
Verification of the Mood-Tracker service (`src/app.py`) against its
natural-language specification.

The repository ships the FastAPI wiring (`app.py`) in source form; the
imported modules `model` (the Scorer, `predict_mood_score` /
`train_model_if_needed`) and `recommendations` (the Recommender,
`generate_recommendations`) are not part of the source tree, so their
bodies are modelled from the specification (each such definition carries a
doc comment starting `Modelled from the spec:`).

Numeric conventions of the shallow embedding: Python `float` fields are
embedded as `ℚ`, Python `int` fields as `ℤ`.  The two `Literal` string
enums are embedded as inductive types, since FastAPI/pydantic rejects any
payload outside those literals before the handler runs.
-/

/-- Embeds `Literal["Low", "Medium", "High"]` for `stress_level`. -/
inductive StressLevel where
  | Low
  | Medium
  | High
deriving DecidableEq, Repr

/-- Embeds `Literal["Healthy", "Moderate", "Unhealthy"]` for `food_quality`. -/
inductive FoodQuality where
  | Healthy
  | Moderate
  | Unhealthy
deriving DecidableEq, Repr

/-- Embeds the priority literal `Literal["High", "Medium", "Low"]` of the
`Recommendation` pydantic model in `app.py`. -/
inductive Priority where
  | High
  | Medium
  | Low
deriving DecidableEq, Repr

/-- Numeric rank of a priority, `High > Medium > Low`, used to state the
ordering law. -/
def Priority.rank : Priority → Nat
  | .High => 2
  | .Medium => 1
  | .Low => 0

/-- Embeds the pydantic model `MoodInput` of `app.py` (the spec's
`MetricsInput`): the shape of a request payload whose fields already have
the declared types.  The declarative `ge=0` bounds and the
`check_reasonable_values` validator are embedded separately in
`validationErrors`, mirroring that pydantic runs them after type coercion. -/
structure MoodInput where
  day_rating : String
  water_intake : ℚ
  people_met : ℤ
  exercise : ℤ
  sleep : ℚ
  screen_time : ℚ
  outdoor_time : ℚ
  stress_level : StressLevel
  food_quality : FoodQuality
deriving DecidableEq, Repr

/-- Embeds the `max_values` dict inside `MoodInput.check_reasonable_values`
in `app.py`. -/
def max_values (field_name : String) : Option ℚ :=
  if field_name = "water_intake" then some 15
  else if field_name = "sleep" then some 24
  else if field_name = "screen_time" then some 24
  else if field_name = "outdoor_time" then some 24
  else none

/-- Embeds `MoodInput.check_reasonable_values` of `app.py`: for a field it
is applied to, returns the error message when the value exceeds the
field's entry in `max_values`, and no error otherwise.  (The validator is
only attached to the four keys of `max_values`, so the dict lookup cannot
fail.) -/
def check_reasonable_values (field_name : String) (v : ℚ) : Option String :=
  match max_values field_name with
  | some m => if v > m then some (field_name ++ " seems unreasonably high") else none
  | none => none

/-- Turns an optional error into a list of errors. -/
def errList : Option String → List String
  | some e => [e]
  | none => []

/-- Embeds the full pydantic validation of `MoodInput`: the declarative
`ge=0` constraints on the six numeric fields together with the
`check_reasonable_values` validator on `water_intake`, `sleep`,
`screen_time` and `outdoor_time`.  Pydantic aggregates all field failures
into one error, hence a list.  `day_rating : str` carries no constraint in
`app.py` beyond being a string, so it contributes no check. -/
def validationErrors (i : MoodInput) : List String :=
  (if i.water_intake < 0 then ["water_intake must be greater than or equal to 0"] else [])
    ++ (if i.people_met < 0 then ["people_met must be greater than or equal to 0"] else [])
    ++ (if i.exercise < 0 then ["exercise must be greater than or equal to 0"] else [])
    ++ (if i.sleep < 0 then ["sleep must be greater than or equal to 0"] else [])
    ++ (if i.screen_time < 0 then ["screen_time must be greater than or equal to 0"] else [])
    ++ (if i.outdoor_time < 0 then ["outdoor_time must be greater than or equal to 0"] else [])
    ++ errList (check_reasonable_values "water_intake" i.water_intake)
    ++ errList (check_reasonable_values "sleep" i.sleep)
    ++ errList (check_reasonable_values "screen_time" i.screen_time)
    ++ errList (check_reasonable_values "outdoor_time" i.outdoor_time)

/-- A payload is accepted exactly when validation reports no failure. -/
def validateMoodInput (i : MoodInput) : Bool :=
  validationErrors i = []

lemma ite_singleton_eq_nil {c : Prop} [Decidable c] (x : String) :
    (if c then [x] else []) = ([] : List String) ↔ ¬ c := by
  split_ifs with h <;> simp [h]

lemma max_values_water : max_values "water_intake" = some 15 := rfl
lemma max_values_sleep : max_values "sleep" = some 24 := rfl
lemma max_values_screen : max_values "screen_time" = some 24 := rfl
lemma max_values_outdoor : max_values "outdoor_time" = some 24 := rfl

lemma check_eq_nil_of_max (f : String) (m v : ℚ) (h : max_values f = some m) :
    errList (check_reasonable_values f v) = [] ↔ v ≤ m := by
  rw [check_reasonable_values, h]
  show errList (if v > m then _ else none) = [] ↔ v ≤ m
  split_ifs with hv <;> simp [errList] <;> [linarith; linarith]

/-- Characterization of acceptance: validation succeeds iff every numeric
field is nonneg and the four bounded fields are within their inclusive
upper bounds. -/
lemma validateMoodInput_iff (i : MoodInput) :
    validateMoodInput i = true ↔
      (0 ≤ i.water_intake ∧ i.water_intake ≤ 15 ∧
       0 ≤ i.people_met ∧ 0 ≤ i.exercise ∧
       0 ≤ i.sleep ∧ i.sleep ≤ 24 ∧
       0 ≤ i.screen_time ∧ i.screen_time ≤ 24 ∧
       0 ≤ i.outdoor_time ∧ i.outdoor_time ≤ 24) := by
  rw [validateMoodInput, decide_eq_true_eq, validationErrors]
  simp only [List.append_eq_nil, ite_singleton_eq_nil, not_lt,
    check_eq_nil_of_max _ _ _ max_values_water,
    check_eq_nil_of_max _ _ _ max_values_sleep,
    check_eq_nil_of_max _ _ _ max_values_screen,
    check_eq_nil_of_max _ _ _ max_values_outdoor]
  tauto

/-- Penalty the Scorer subtracts for the reported stress level (spec §4.1:
"more stress decreases score"). -/
def stress_penalty : StressLevel → ℚ
  | .Low => 0
  | .Medium => 1
  | .High => 2

/-- Bonus/penalty the Scorer adds for food quality (spec §4.1:
"food-quality bonus/penalty"; "more unhealthy food decreases score"). -/
def food_adjustment : FoodQuality → ℚ
  | .Healthy => 1
  | .Moderate => 0
  | .Unhealthy => -1

/-- Modelled from the spec: the sentiment-derived adjustment obtained from
the free-text `day_rating` (spec §4.1/§9).  §9 explicitly allows the
technique behind the narrow text-to-bounded-adjustment interface to be a
no-op, which this model adopts. -/
def sentiment_adjustment (day_rating : String) : ℚ := 0

/-- Modelled from the spec: the unclamped weighted composite of the
Scorer's features (spec §4.1: sleep adequacy up to a healthy ceiling,
exercise adequacy, hydration, social-contact term, outdoor-time bonus,
screen-time penalty, stress penalty, food-quality adjustment, sentiment
term).  Each factor is monotone in the intuitive direction. -/
def raw_mood_score (day_rating : String) (water_intake : ℚ) (people_met : ℤ)
    (exercise : ℤ) (sleep : ℚ) (screen_time : ℚ) (outdoor_time : ℚ)
    (stress_level : StressLevel) (food_quality : FoodQuality) : ℚ :=
  5 + (min sleep 8 - 4) / 2
    + min (exercise : ℚ) 60 / 60
    + min water_intake 3 / 3
    + min (people_met : ℚ) 5 / 5
    + min outdoor_time 2 / 2
    - screen_time / 8
    - stress_penalty stress_level
    + food_adjustment food_quality
    + sentiment_adjustment day_rating

/-- Clamps the composite score into [0,10] (spec §4.1(c): "clamped so
output never leaves [0,10] regardless of input combination"). -/
def clamp_score (x : ℚ) : ℚ := max 0 (min 10 x)

/-- Modelled from the spec: `model.predict_mood_score`, the Scorer, whose
module is not part of the source tree.  A deterministic, pure function of
the nine keyword arguments the handler passes it (`app.py` lines 65-75),
clamped into [0,10].  Signature mirrors the call site. -/
def predict_mood_score (day_rating : String) (water_intake : ℚ) (people_met : ℤ)
    (exercise : ℤ) (sleep : ℚ) (screen_time : ℚ) (outdoor_time : ℚ)
    (stress_level : StressLevel) (food_quality : FoodQuality) : ℚ :=
  clamp_score (raw_mood_score day_rating water_intake people_met exercise sleep
    screen_time outdoor_time stress_level food_quality)

/-- Embeds Python's `round(x, 1)` from `app.py` line 89: rounding to one
decimal place, modelled with round-to-nearest over `ℚ`. -/
def round1 (x : ℚ) : ℚ := (round (10 * x) : ℤ) / 10

/-- The Scorer applied to a `MoodInput`, exactly as the handler calls it
(`app.py` lines 65-75: every field, including `day_rating`). -/
def score_of (i : MoodInput) : ℚ :=
  predict_mood_score i.day_rating i.water_intake i.people_met i.exercise
    i.sleep i.screen_time i.outdoor_time i.stress_level i.food_quality

lemma clamp_score_nonneg (x : ℚ) : 0 ≤ clamp_score x := le_max_left 0 _

lemma clamp_score_le_ten (x : ℚ) : clamp_score x ≤ 10 :=
  max_le (by norm_num) (min_le_left 10 x)

lemma clamp_score_mono : Monotone clamp_score := fun a b h =>
  max_le_max le_rfl (min_le_min le_rfl h)

lemma round1_bounds {x : ℚ} (h0 : 0 ≤ x) (h10 : x ≤ 10) :
    0 ≤ round1 x ∧ round1 x ≤ 10 := by
  have hlo : (0 : ℤ) ≤ round (10 * x) := by
    have h := round_intCast (α := ℚ) 0
    calc (0 : ℤ) = round ((0 : ℤ) : ℚ) := h.symm
      _ ≤ round (10 * x) := by
          rw [round_eq, round_eq]
          exact Int.floor_le_floor (by push_cast; linarith)
  have hhi : round (10 * x) ≤ (100 : ℤ) := by
    have h := round_intCast (α := ℚ) 100
    calc round (10 * x) ≤ round (((100 : ℤ) : ℚ)) := by
          rw [round_eq, round_eq]
          exact Int.floor_le_floor (by push_cast; linarith)
      _ = 100 := h
  constructor
  · unfold round1
    positivity
  · unfold round1
    rw [div_le_iff₀ (by norm_num : (0:ℚ) < 10)]
    calc ((round (10 * x) : ℤ) : ℚ) ≤ ((100 : ℤ) : ℚ) := by exact_mod_cast hhi
      _ = 10 * 10 := by norm_num

/-- Embeds the pydantic model `Recommendation` of `app.py`: a priority, a
recommendation text and a category label. -/
structure Recommendation where
  priority : Priority
  recommendation : String
  category : String
deriving DecidableEq, Repr

/-- The argument record of the Recommender: exactly the eight keyword
arguments the handler passes to `generate_recommendations` (`app.py`
lines 78-87) — every `MoodInput` field except `day_rating`. -/
structure RecArgs where
  water_intake : ℚ
  people_met : ℤ
  exercise : ℤ
  sleep : ℚ
  screen_time : ℚ
  outdoor_time : ℚ
  stress_level : StressLevel
  food_quality : FoodQuality
deriving DecidableEq, Repr

/-- One threshold rule of the Recommender's fixed rule table: a statically
associated priority, text and category, and a condition on the metrics. -/
structure Rule where
  priority : Priority
  recommendation : String
  category : String
  condition : RecArgs → Bool

/-- Modelled from the spec: the fixed table of threshold rules of
`recommendations.generate_recommendations` (spec §4.2), whose module is
not part of the source tree.  Rules are independently evaluated and not
mutually exclusive; each is keyed to one metric with a statically
associated category; the list order is the declaration order used for
tie-breaking. -/
def rule_table : List Rule :=
  [⟨.High, "Increase your sleep to at least 7 hours", "sleep",
      fun a => a.sleep < 6⟩,
   ⟨.High, "Set aside time for relaxation to lower your stress", "stress",
      fun a => a.stress_level == .High⟩,
   ⟨.Medium, "Choose healthier meals", "nutrition",
      fun a => a.food_quality == .Unhealthy⟩,
   ⟨.Medium, "Reduce your screen time", "screen_time",
      fun a => 8 < a.screen_time⟩,
   ⟨.Medium, "Add at least 30 minutes of exercise", "exercise",
      fun a => a.exercise < 30⟩,
   ⟨.Low, "Spend more time outdoors", "outdoors",
      fun a => a.outdoor_time < 1⟩,
   ⟨.Low, "Reach out and connect with someone", "social",
      fun a => a.people_met == 0⟩]

/-- The `Recommendation` record a fired rule emits. -/
def Rule.emit (r : Rule) : Recommendation :=
  ⟨r.priority, r.recommendation, r.category⟩

/-- The rules of the table whose condition holds, in declaration order. -/
def fired_rules (a : RecArgs) : List Rule :=
  rule_table.filter (fun r => r.condition a)

/-- The emissions of the fired rules of one priority, in declaration
order. -/
def priority_bucket (p : Priority) (l : List Rule) : List Recommendation :=
  (l.filter (fun r => r.priority == p)).map Rule.emit

/-- Orders emissions by priority rank first and, within equal priority, by
declaration order (spec §4.2's stable ordering policy). -/
def order_recommendations (l : List Rule) : List Recommendation :=
  priority_bucket .High l ++ priority_bucket .Medium l ++ priority_bucket .Low l

/-- Modelled from the spec: `recommendations.generate_recommendations`,
the Recommender, whose module is not part of the source tree.  Evaluates
every rule of the fixed table on the metrics and returns the fired rules'
emissions ordered by priority then declaration order.  Signature mirrors
the call site (`app.py` lines 78-87). -/
def generate_recommendations (water_intake : ℚ) (people_met : ℤ) (exercise : ℤ)
    (sleep : ℚ) (screen_time : ℚ) (outdoor_time : ℚ)
    (stress_level : StressLevel) (food_quality : FoodQuality) : List Recommendation :=
  order_recommendations (fired_rules
    ⟨water_intake, people_met, exercise, sleep, screen_time, outdoor_time,
     stress_level, food_quality⟩)

/-- The Recommender applied to a `MoodInput`, exactly as the handler calls
it (`app.py` lines 78-87: every field except `day_rating`). -/
def recs_of (i : MoodInput) : List Recommendation :=
  generate_recommendations i.water_intake i.people_met i.exercise i.sleep
    i.screen_time i.outdoor_time i.stress_level i.food_quality

/-- An HTTP error response, as raised by `HTTPException(status_code, detail)`. -/
structure HTTPError where
  status_code : Nat
  detail : String
deriving DecidableEq, Repr

/-- Embeds the response model `MoodOutput` of `app.py`. -/
structure MoodOutput where
  mood_score : ℚ
  recommendations : List Recommendation
deriving DecidableEq, Repr

/-- Embeds the `/predict` handler `predict_mood` of `app.py` (lines
62-91), parametric in the two core functions so the defensive
`try/except` is visible: any failure raised by the Scorer or the
Recommender (modelled as `Except.error` carrying `str(e)`) is caught and
re-raised as `HTTPException(status_code=500, detail=str(e))`; on success
the handler returns `MoodOutput` with the score rounded to one decimal. -/
def predict_mood (scorer : MoodInput → Except String ℚ)
    (recommender : MoodInput → Except String (List Recommendation))
    (input_data : MoodInput) : Except HTTPError MoodOutput :=
  match scorer input_data with
  | .error e => .error ⟨500, e⟩
  | .ok mood_score =>
    match recommender input_data with
    | .error e => .error ⟨500, e⟩
    | .ok recommendations => .ok ⟨round1 mood_score, recommendations⟩

/-- The deployed `/predict` handler: `predict_mood` instantiated with the
(total) modelled Scorer and Recommender. -/
def predict_endpoint (i : MoodInput) : Except HTTPError MoodOutput :=
  predict_mood (fun j => .ok (score_of j)) (fun j => .ok (recs_of j)) i

lemma predict_endpoint_eq (i : MoodInput) :
    predict_endpoint i = .ok ⟨round1 (score_of i), recs_of i⟩ := rfl

/-- The request pipeline: FastAPI validates the payload against `MoodInput`
before the handler runs; an invalid payload is answered with the
aggregated field errors (HTTP 422) and the handler — hence Scorer and
Recommender — is never invoked. -/
def process_request (i : MoodInput) : Except (List String) (Except HTTPError MoodOutput) :=
  if validateMoodInput i then .ok (predict_endpoint i) else .error (validationErrors i)

/-- The Recommender argument record built from a validated payload. -/
def recArgs_of (i : MoodInput) : RecArgs :=
  ⟨i.water_intake, i.people_met, i.exercise, i.sleep, i.screen_time,
   i.outdoor_time, i.stress_level, i.food_quality⟩

lemma recs_of_eq (i : MoodInput) :
    recs_of i = order_recommendations (fired_rules (recArgs_of i)) := rfl

lemma mem_priority_bucket {p : Priority} {l : List Rule} {r : Recommendation}
    (h : r ∈ priority_bucket p l) : r.priority = p := by
  rcases List.mem_map.mp h with ⟨ru, hru, hemit⟩
  rcases List.mem_filter.mp hru with ⟨_, hp⟩
  rw [← hemit]
  exact beq_iff_eq.mp hp

lemma filter_priority_bucket (p q : Priority) (l : List Rule) :
    (priority_bucket q l).filter (fun r => r.priority == p) =
      if p = q then priority_bucket q l else [] := by
  unfold priority_bucket
  rw [List.filter_map]
  have hcomp : ((fun r : Recommendation => r.priority == p) ∘ Rule.emit)
      = fun ru : Rule => ru.priority == p := rfl
  rw [hcomp, List.filter_filter]
  by_cases hpq : p = q
  · subst hpq
    rw [if_pos rfl]
    congr 1
    apply List.filter_congr
    intro ru _
    simp
  · rw [if_neg hpq]
    have : List.filter (fun a : Rule => (a.priority == p) && (a.priority == q)) l = [] := by
      rw [List.filter_eq_nil_iff]
      intro a _
      simp only [Bool.and_eq_true, beq_iff_eq, not_and]
      intro h1 h2
      exact hpq (h1 ▸ h2 ▸ rfl)
    rw [this, List.map_nil]

lemma filter_order_recommendations (p : Priority) (l : List Rule) :
    (order_recommendations l).filter (fun r => r.priority == p) = priority_bucket p l := by
  unfold order_recommendations
  rw [List.filter_append, List.filter_append,
    filter_priority_bucket, filter_priority_bucket, filter_priority_bucket]
  cases p <;> simp

lemma pairwise_bucket (p : Priority) (l : List Rule) :
    (priority_bucket p l).Pairwise
      (fun x y : Recommendation => y.priority.rank ≤ x.priority.rank) := by
  apply List.pairwise_of_forall_mem_list
  intro a ha b hb
  rw [mem_priority_bucket ha, mem_priority_bucket hb]

lemma pairwise_order_recommendations (l : List Rule) :
    (order_recommendations l).Pairwise
      (fun x y : Recommendation => y.priority.rank ≤ x.priority.rank) := by
  unfold order_recommendations
  rw [List.pairwise_append]
  refine ⟨?_, pairwise_bucket _ _, ?_⟩
  · rw [List.pairwise_append]
    refine ⟨pairwise_bucket _ _, pairwise_bucket _ _, ?_⟩
    intro a ha b hb
    rw [mem_priority_bucket ha, mem_priority_bucket hb]
    simp [Priority.rank]
  · intro a ha b hb
    have hpb := mem_priority_bucket hb
    have hpa : a.priority = .High ∨ a.priority = .Medium := by
      rcases List.mem_append.mp ha with h | h
      · exact Or.inl (mem_priority_bucket h)
      · exact Or.inr (mem_priority_bucket h)
    rw [hpb]
    rcases hpa with h | h <;> rw [h] <;> simp [Priority.rank]

lemma order_recommendations_subset (l : List Rule) :
    order_recommendations l ⊆ l.map Rule.emit := by
  unfold order_recommendations priority_bucket
  refine List.append_subset.mpr ⟨List.append_subset.mpr ⟨?_, ?_⟩, ?_⟩ <;>
    exact List.map_subset Rule.emit (List.filter_subset' l)

lemma raw_mood_score_sleep_le (i : MoodInput) :
    raw_mood_score i.day_rating i.water_intake i.people_met i.exercise 2
        i.screen_time i.outdoor_time i.stress_level i.food_quality ≤
      raw_mood_score i.day_rating i.water_intake i.people_met i.exercise 7
        i.screen_time i.outdoor_time i.stress_level i.food_quality := by
  unfold raw_mood_score
  have h2 : min (2 : ℚ) 8 = 2 := by norm_num
  have h7 : min (7 : ℚ) 8 = 7 := by norm_num
  rw [h2, h7]
  linarith

lemma raw_mood_score_stress_le (i : MoodInput) :
    raw_mood_score i.day_rating i.water_intake i.people_met i.exercise i.sleep
        i.screen_time i.outdoor_time .High i.food_quality ≤
      raw_mood_score i.day_rating i.water_intake i.people_met i.exercise i.sleep
        i.screen_time i.outdoor_time .Low i.food_quality := by
  unfold raw_mood_score stress_penalty
  linarith

/-- The minimum-metric payload: every numeric field at its lower bound 0,
the enums at their least-burden literals, the free text empty. -/
def minMetricsInput : MoodInput :=
  ⟨"", 0, 0, 0, 0, 0, 0, .Low, .Healthy⟩

/-- The maximum-allowed-metric payload: every bounded numeric field at its
inclusive upper bound; the unbounded integer fields at a large value. -/
def maxMetricsInput : MoodInput :=
  ⟨"a very long day", 15, 1000000, 1000000, 24, 24, 24, .High, .Unhealthy⟩

/-- A valid everyday payload (spec §8, end-to-end scenario 1). -/
def scenarioOneInput : MoodInput :=
  ⟨"ok", 2, 3, 30, mkRat 15 2, 4, 1, .Low, .Healthy⟩

/-- A valid payload whose `day_rating` is the empty string. -/
def emptyDayRatingInput : MoodInput :=
  ⟨"", 2, 3, 30, 8, 4, 1, .Low, .Healthy⟩

/-- A Scorer stand-in that always raises, for exercising the handler's
defensive `except` branch. -/
def boomScorer : MoodInput → Except String ℚ := fun _ => .error "boom"

/-- C1: for every payload accepted by validation, the `/predict` endpoint
succeeds and the returned mood score — already rounded to one decimal
place — lies in the closed interval [0,10]. -/
theorem predict_score_in_range (i : MoodInput)
    (h : validateMoodInput i = true) :
    ∃ out : MoodOutput, predict_endpoint i = .ok out ∧
      0 ≤ out.mood_score ∧ out.mood_score ≤ 10 :=
  ⟨⟨round1 (score_of i), recs_of i⟩, rfl,
    round1_bounds (clamp_score_nonneg _) (clamp_score_le_ten _)⟩

/-- C1 witness: both the minimum-metric payload and the
maximum-allowed-metric payload yield in-range scores. -/
theorem predict_score_in_range_witness :
    (∃ out : MoodOutput, predict_endpoint minMetricsInput = .ok out ∧
      0 ≤ out.mood_score ∧ out.mood_score ≤ 10) ∧
    (∃ out : MoodOutput, predict_endpoint maxMetricsInput = .ok out ∧
      0 ≤ out.mood_score ∧ out.mood_score ≤ 10) :=
  ⟨predict_score_in_range minMetricsInput (by decide),
   predict_score_in_range maxMetricsInput (by decide)⟩

/-- C2: a payload with `water_intake` above 15, or `sleep`, `screen_time`
or `outdoor_time` above 24, is rejected with the aggregated validation
failure before the handler — hence before Scorer and Recommender — runs,
whereas setting every bounded field exactly to its bound keeps an
otherwise-acceptable payload accepted: the upper bounds are inclusive. -/
theorem validation_bounds_inclusive_upper (i : MoodInput) :
    ((15 < i.water_intake ∨ 24 < i.sleep ∨ 24 < i.screen_time ∨ 24 < i.outdoor_time) →
      process_request i = .error (validationErrors i)) ∧
    (0 ≤ i.people_met → 0 ≤ i.exercise →
      validateMoodInput
        {i with water_intake := 15, sleep := 24, screen_time := 24, outdoor_time := 24}
          = true) := by
  constructor
  · intro hover
    have hfalse : validateMoodInput i = false := by
      cases hval : validateMoodInput i
      · rfl
      · exfalso
        obtain ⟨h1, h2, h3, h4, h5, h6, h7, h8, h9, h10⟩ := (validateMoodInput_iff i).mp hval
        rcases hover with h | h | h | h <;> linarith
    simp [process_request, hfalse]
  · intro hp he
    exact (validateMoodInput_iff _).mpr
      ⟨by norm_num, by norm_num, hp, he, by norm_num, by norm_num,
       by norm_num, by norm_num, by norm_num, by norm_num⟩

/-- C2 witness: `sleep = 25` is rejected before the core runs, while a
payload with every bounded field at its bound is accepted. -/
theorem validation_bounds_inclusive_upper_witness :
    process_request {scenarioOneInput with sleep := 25} =
      .error (validationErrors {scenarioOneInput with sleep := 25}) ∧
    validateMoodInput
      {scenarioOneInput with
        water_intake := 15, sleep := 24, screen_time := 24, outdoor_time := 24} = true :=
  ⟨(validation_bounds_inclusive_upper _).1 (Or.inr (Or.inl (by norm_num))),
   (validation_bounds_inclusive_upper scenarioOneInput).2 (by decide) (by decide)⟩

/-- C3 counterexample: a payload whose `day_rating` is the empty string is
accepted by validation and processed by the handler — `day_rating : str`
carries no non-empty constraint in `app.py`, contradicting the claim that
such a request is rejected. -/
theorem empty_day_rating_accepted :
    emptyDayRatingInput.day_rating = "" ∧
    validateMoodInput emptyDayRatingInput = true ∧
    process_request emptyDayRatingInput = .ok (predict_endpoint emptyDayRatingInput) := by
  have h : validateMoodInput emptyDayRatingInput = true := by decide
  exact ⟨rfl, h, by simp [process_request, h]⟩

/-- C3 amended: validation does not constrain `day_rating` at all — its
outcome is independent of `day_rating`, so a payload with empty
`day_rating` is accepted whenever its remaining fields are. -/
theorem validation_ignores_day_rating (i : MoodInput) (d : String) :
    validateMoodInput {i with day_rating := d} = validateMoodInput i := rfl

/-- C4: holding every other field fixed, raising `sleep` from 2 to 7 hours
does not decrease the Scorer's output, and moving `stress_level` from Low
to High does not increase it. -/
theorem score_monotone_sleep_and_stress (i : MoodInput) :
    score_of {i with sleep := 2} ≤ score_of {i with sleep := 7} ∧
    score_of {i with stress_level := .High} ≤ score_of {i with stress_level := .Low} :=
  ⟨clamp_score_mono (raw_mood_score_sleep_le i),
   clamp_score_mono (raw_mood_score_stress_le i)⟩

/-- C5: the recommendations sequence has non-increasing priorities in
sequence order, and the entries of each priority are exactly the fired
rules of that priority in rule-table declaration order (stable sort). -/
theorem recommendations_priority_ordered (i : MoodInput) :
    (recs_of i).Pairwise
      (fun x y : Recommendation => y.priority.rank ≤ x.priority.rank) ∧
    ∀ p : Priority, (recs_of i).filter (fun r => r.priority == p) =
      ((rule_table.filter (fun r => r.condition (recArgs_of i))).filter
        (fun r => r.priority == p)).map Rule.emit := by
  rw [recs_of_eq]
  exact ⟨pairwise_order_recommendations _, fun p => filter_order_recommendations p _⟩

/-- C6: the Scorer is deterministic — identical inputs give identical
outputs; in this embedding it is a pure function of the payload, with no
hidden state or randomness. -/
theorem scorer_deterministic (i j : MoodInput) (h : i = j) :
    score_of i = score_of j :=
  congrArg score_of h

/-- C6 witness. -/
theorem scorer_deterministic_witness :
    score_of scenarioOneInput = score_of scenarioOneInput :=
  scorer_deterministic scenarioOneInput scenarioOneInput rfl

/-- C7: whenever the Scorer or the Recommender raises, the handler answers
with HTTP 500 carrying the failure's textual description, and a success
with the rounded score and the recommendations is the only other outcome —
no retry, no partial result. -/
theorem core_failure_surfaces_as_500 (f : MoodInput → Except String ℚ)
    (g : MoodInput → Except String (List Recommendation)) (i : MoodInput) :
    (∀ e, f i = .error e → predict_mood f g i = .error ⟨500, e⟩) ∧
    (∀ s e, f i = .ok s → g i = .error e → predict_mood f g i = .error ⟨500, e⟩) ∧
    (∀ s r, f i = .ok s → g i = .ok r → predict_mood f g i = .ok ⟨round1 s, r⟩) := by
  refine ⟨?_, ?_, ?_⟩
  · intro e he
    simp [predict_mood, he]
  · intro s e hs hg
    simp [predict_mood, hs, hg]
  · intro s r hs hg
    simp [predict_mood, hs, hg]

/-- C7 witness: a raising Scorer surfaces as status 500 with its message. -/
theorem core_failure_surfaces_as_500_witness :
    predict_mood boomScorer (fun j => .ok (recs_of j)) minMetricsInput =
      .error ⟨500, "boom"⟩ :=
  (core_failure_surfaces_as_500 boomScorer (fun j => .ok (recs_of j))
    minMetricsInput).1 "boom" rfl

/-- C8: the Recommender is total — for every payload it returns a
(possibly empty) list of Recommendation records, each of which is the
emission of a rule of the fixed table; the empty outcome is realized by
the healthy everyday payload. -/
theorem recommender_total_and_from_table (i : MoodInput) :
    recs_of i ⊆ rule_table.map Rule.emit ∧ recs_of scenarioOneInput = [] := by
  constructor
  · intro r hr
    exact List.map_subset Rule.emit (List.filter_subset' rule_table)
      (order_recommendations_subset _ (recs_of_eq i ▸ hr))
  · decide

/-- C9: `people_met` and `exercise` are unbounded above — any nonnegative
integers pass validation (the rest of the payload unchanged) and the
request is processed by Scorer and Recommender. -/
theorem people_exercise_unbounded (i : MoodInput) (p e : ℤ)
    (hp : 0 ≤ p) (he : 0 ≤ e) (h : validateMoodInput i = true) :
    validateMoodInput {i with people_met := p, exercise := e} = true ∧
    process_request {i with people_met := p, exercise := e} =
      .ok (predict_endpoint {i with people_met := p, exercise := e}) := by
  obtain ⟨h1, h2, _, _, h5, h6, h7, h8, h9, h10⟩ := (validateMoodInput_iff i).mp h
  have hv : validateMoodInput {i with people_met := p, exercise := e} = true :=
    (validateMoodInput_iff _).mpr ⟨h1, h2, hp, he, h5, h6, h7, h8, h9, h10⟩
  exact ⟨hv, by simp [process_request, hv]⟩

/-- C9 witness: a billion-strong social circle and a very long workout
still validate. -/
theorem people_exercise_unbounded_witness :
    validateMoodInput
      {scenarioOneInput with people_met := 1000000000, exercise := 987654321} = true ∧
    process_request
      {scenarioOneInput with people_met := 1000000000, exercise := 987654321} =
      .ok (predict_endpoint
        {scenarioOneInput with people_met := 1000000000, exercise := 987654321}) :=
  people_exercise_unbounded scenarioOneInput 1000000000 987654321
    (by decide) (by decide) (by decide)

/-- C10: the recommendations part of the endpoint's answer is independent
of `day_rating`: the handler never passes `day_rating` to the Recommender
(`app.py` lines 78-87). -/
theorem recommendations_independent_of_day_rating (i : MoodInput) (d : String) :
    Except.map MoodOutput.recommendations (predict_endpoint {i with day_rating := d}) =
      Except.map MoodOutput.recommendations (predict_endpoint i) := rfl
